import Mathlib

/-!
Shallow embedding of the core of `twitch-channel-pt-spotify-bot` for
specification checking.

The embedding covers:
* `src/queueStore.js` — the local song-request queue, its reconciliation
  against the "currently playing" snapshot, and the clear operation;
* `src/twitchEventSub.js` — the webhook POST handler (handshake echo,
  signature verification, dispatch) and the redemption router
  (`handleSongRequest`, `handleEventNotification`);
* `src/spotifyClient.js` — `addSongToQueue` (the playback gateway), and the
  blacklist manager appended to that file (`getBlacklist`, `isBlacklisted`).

JavaScript conventions used throughout the model:
* a possibly-`undefined` string is `Option String`; JS string truthiness
  (`!s` is true for `undefined` and for `""`) is the `truthy` helper;
* exceptions are modelled with `Except` or, where the original code
  catches them locally, by explicit result/effect records;
* network calls (Spotify API, HMAC) are oracle functions stored in an
  environment record, so theorems quantify over every possible provider
  behaviour.
-/

namespace QueueStore

/-- A song request as stored by `queueStore.js` (`addToQueue`'s parameter):
required fields `trackId`, `trackName`, `artistName`, `requestedBy`;
optional `albumName`, `albumImage`; `requestedAt` is stamped on insertion.
A missing/`undefined` required field is modelled as `""` (both are falsy
under the JS `!` checks the code performs). -/
structure SongRequest where
  trackId : String
  trackName : String
  artistName : String
  albumName : Option String := none
  albumImage : Option String := none
  requestedBy : String
  requestedAt : Option String := none
deriving Repr, DecidableEq

/-- The module-level mutable state of `queueStore.js`:
`songRequestQueue` and `currentlyPlayingSong`. -/
structure QueueState where
  songRequestQueue : List SongRequest
  currentlyPlayingSong : Option SongRequest
deriving Repr, DecidableEq

/-- The JS value returned by `addToQueue` (and, for comparison with the
spec, the numeric position the spec says it returns).  The source code
(`return { queue: songRequestQueue };`) only ever produces `queueObj`. -/
inductive AddToQueueRet where
  | queueObj (queue : List SongRequest)
  | position (n : Nat)
deriving Repr, DecidableEq

/-- `addToQueue(songRequest)` from `queueStore.js`.
`now` is the ISO timestamp the code stamps on the request
(`songRequest.requestedAt = new Date().toISOString()`).
Throws (models `throw new Error(...)`) when a required field is missing;
otherwise pushes the stamped request and returns `{ queue }`.
The `scheduleDailyClear()` side effect is a timer concern with no bearing
on the queue contents and is not part of the state modelled here. -/
def addToQueue (now : String) (songRequest : SongRequest) (st : QueueState) :
    Except String (QueueState × AddToQueueRet) :=
  if songRequest.trackId == "" || songRequest.trackName == "" ||
      songRequest.artistName == "" || songRequest.requestedBy == "" then
    .error "Invalid song request: missing required fields"
  else
    let stamped := { songRequest with requestedAt := some now }
    let newQueue := st.songRequestQueue ++ [stamped]
    .ok ({ st with songRequestQueue := newQueue }, .queueObj newQueue)

/-- `getQueue()` from `queueStore.js`. -/
def getQueue (st : QueueState) : List SongRequest :=
  st.songRequestQueue

/-- The `item` field of the Spotify "currently playing" response that
`checkAndRemoveCurrentlyPlaying` reads (`currentlyPlaying.item.id`). -/
structure SpotifyItem where
  id : String
deriving Repr, DecidableEq

/-- The `currentlyPlaying` argument of `checkAndRemoveCurrentlyPlaying`:
the raw Spotify API response, whose `item` may be absent. -/
structure CurrentlyPlaying where
  item : Option SpotifyItem
deriving Repr, DecidableEq

/-- The object `checkAndRemoveCurrentlyPlaying` returns:
`{ matched, skipped }`. -/
structure CheckResult where
  matched : Bool
  skipped : List SongRequest
deriving Repr, DecidableEq

/-- The tail of `checkAndRemoveCurrentlyPlaying`: when no queue entry was
matched, reset `currentlyPlayingSong` if the externally playing track
differs from it. -/
def resetIfChanged (st : QueueState) (item : SpotifyItem) : QueueState × CheckResult :=
  match st.currentlyPlayingSong with
  | some cur =>
      if cur.trackId != item.id then
        ({ st with currentlyPlayingSong := none }, ⟨false, []⟩)
      else (st, ⟨false, []⟩)
  | none => (st, ⟨false, []⟩)

/-- `checkAndRemoveCurrentlyPlaying(currentlyPlaying)` from `queueStore.js`:
the reconciliation algorithm.  Mirrors the source control flow:
1. nothing playing (`!currentlyPlaying || !currentlyPlaying.item`): no-op;
2. head of queue matches: pop it, set as currently playing;
3. second entry matches: discard the head as skipped, pop the second and
   set it as currently playing;
4. otherwise fall through to `resetIfChanged`. -/
def checkAndRemoveCurrentlyPlaying (currentlyPlaying : Option CurrentlyPlaying)
    (st : QueueState) : QueueState × CheckResult :=
  match currentlyPlaying with
  | none => (st, ⟨false, []⟩)
  | some cp =>
    match cp.item with
    | none => (st, ⟨false, []⟩)
    | some item =>
      match st.songRequestQueue with
      | firstInQueue :: restQueue =>
        if firstInQueue.trackId == item.id then
          ({ songRequestQueue := restQueue,
             currentlyPlayingSong := some firstInQueue }, ⟨true, []⟩)
        else
          match restQueue with
          | second :: rest2 =>
            if second.trackId == item.id then
              ({ songRequestQueue := rest2,
                 currentlyPlayingSong := some second }, ⟨true, [firstInQueue]⟩)
            else resetIfChanged st item
          | [] => resetIfChanged st item
      | [] => resetIfChanged st item

/-- `clearQueue()` from `queueStore.js`: empties `songRequestQueue` and
returns `{ queue: songRequestQueue }` (the now-empty queue).  Note the
source does not touch `currentlyPlayingSong`. -/
def clearQueue (st : QueueState) : QueueState × List SongRequest :=
  ({ st with songRequestQueue := [] }, [])

/-- `getCurrentlyPlaying()` from `queueStore.js`. -/
def getCurrentlyPlaying (st : QueueState) : Option SongRequest :=
  st.currentlyPlayingSong

/-- The names in `module.exports` of `queueStore.js`. -/
def queueStoreExports : List String :=
  ["addToQueue", "getQueue", "checkAndRemoveCurrentlyPlaying", "clearQueue",
   "getCurrentlyPlaying"]

end QueueStore

namespace BlacklistManager

/-- JS `String.prototype.split(',')` on a character list: cut at every
comma, keeping empty segments. -/
def splitCommaAux : List Char → List Char → List String
  | [], acc => [String.mk acc.reverse]
  | c :: cs, acc =>
      if c = ',' then String.mk acc.reverse :: splitCommaAux cs []
      else splitCommaAux cs (c :: acc)

/-- ASCII whitespace, as removed by JS `String.prototype.trim()`. -/
def isWs (c : Char) : Bool :=
  c = ' ' || c = '\t' || c = '\n' || c = '\r'

/-- Drop leading whitespace characters. -/
def dropWs : List Char → List Char
  | [] => []
  | c :: cs => if isWs c then dropWs cs else c :: cs

/-- JS `String.prototype.trim()`: strip whitespace from both ends. -/
def trimStr (s : String) : String :=
  String.mk ((dropWs (dropWs s.toList).reverse).reverse)

/-- JS `String.prototype.toLowerCase()` (ASCII range). -/
def toLowerStr (s : String) : String :=
  String.mk (s.toList.map Char.toLower)

/-- `getBlacklist()` from the blacklist manager (appended in
`spotifyClient.js`): reads `blacklist.txt` (`none` models a missing file,
in which case the function returns `[]`), splits on commas, trims each
entry and drops empty entries. -/
def getBlacklist (file : Option String) : List String :=
  match file with
  | none => []
  | some content =>
      ((splitCommaAux content.toList []).map trimStr).filter
        (fun u => u.length > 0)

/-- `isBlacklisted(username)` from the blacklist manager: membership of the
lowercased username in the stored list.  Note the source lowercases only
the queried username, not the stored entries. -/
def isBlacklisted (file : Option String) (username : String) : Bool :=
  (getBlacklist file).contains (toLowerStr username)

end BlacklistManager

namespace TwitchEventSub

open QueueStore

/-- `redemption.reward` of a channel-point redemption event
(`reward.title` is read by `handleEventNotification`). -/
structure RewardInfo where
  title : String
deriving Repr, DecidableEq

/-- The `event` field of a redemption notification:
`reward.title`, `user_name`, `user_input` are the fields the code reads.
`reward` may be absent (reading `.title` on it would throw). -/
structure RedemptionEvent where
  reward : Option RewardInfo
  user_name : String
  user_input : String
deriving Repr, DecidableEq

/-- The `subscription` field of a notification; the code reads
`subscription.type`. -/
structure SubscriptionInfo where
  type : String
deriving Repr, DecidableEq

/-- A parsed webhook payload, with exactly the fields
`twitchEventSub.js` reads: `challenge`, `subscription.type`,
`event.reward.title`, `event.user_name`, `event.user_input`.
`Option` marks fields that may be absent from the JSON. -/
structure Notification where
  challenge : Option String := none
  subscription : Option SubscriptionInfo := none
  event : Option RedemptionEvent := none
deriving Repr, DecidableEq

/-- An inbound `POST /webhook/twitch` request: the raw body (the exact
bytes the signature is computed over), the result of `JSON.parse` on it
(`none` models a parse failure), and the four Twitch headers
(`none` models an absent header). -/
structure WebhookRequest where
  rawBody : String
  parsedBody : Option Notification
  messageType : Option String
  messageId : Option String
  timestamp : Option String
  signature : Option String
deriving Repr

/-- The result object `spotifyClient.addSongToQueue` hands back to the
router.  All fields the router reads are present; `trackId` is `Option`
because the real client's success object carries no `trackId` field. -/
structure GatewayResult where
  success : Bool
  trackName : Option String := none
  artistName : Option String := none
  trackId : Option String := none
  error : Option String := none
deriving Repr, DecidableEq

/-- The ambient module state and collaborators of `twitchEventSub.js`:
the webhook secret, the HMAC-SHA256-hex primitive (an oracle — theorems
hold for every deterministic implementation), the configured redemption
name (`REDEMPTION_NAME`), whether the Spotify client reports itself
initialized, the playback gateway (`spotifyClient.addSongToQueue` as an
oracle from the query to its result), and the current timestamp. -/
structure IngressEnv where
  webhookSecret : String
  hmacSha256Hex : String → String → String
  redemptionName : String
  spotifyInitialized : Bool
  gateway : String → GatewayResult
  nowIso : String

/-- JS string truthiness for a possibly-`undefined` string:
`undefined` and `""` are falsy. -/
def truthy : Option String → Bool
  | some s => s != ""
  | none => false

/-- Everything observable about one `handleSongRequest` call:
the queue state afterwards, how many times the playback gateway
(`spotifyClient.addSongToQueue` — track resolution + enqueue) was invoked,
whether a request was appended to the local queue, and the error the
surrounding `try/catch` caught, if any. -/
structure HandleOutcome where
  state : QueueState
  gatewayCalls : Nat
  appended : Bool
  caughtError : Option String
deriving Repr, DecidableEq

/-- `handleSongRequest(username, message)` from `twitchEventSub.js`.
After a successful gateway call the source executes
`queueStore.addSongToQueue(songData)`; `queueStore.js` exports no
`addSongToQueue` (see `queueStoreExports`), so that property access yields
`undefined` and the call throws a `TypeError`, which the function's own
`try/catch` absorbs — nothing is appended.  The `then`-branch of the
export test models what would happen if the export existed and is
unreachable. -/
def handleSongRequest (env : IngressEnv) (st : QueueState)
    (_username message : String) : HandleOutcome :=
  if env.spotifyInitialized = false then
    -- `throw new Error('Spotify client is not initialized')`, caught below
    ⟨st, 0, false, some "Spotify client is not initialized"⟩
  else
    let result := env.gateway message
    if result.success then
      -- songData := { username, trackName, artistName, trackId, requestedAt }
      if queueStoreExports.contains "addSongToQueue" then
        -- unreachable: queueStore.js does not export addSongToQueue
        ⟨st, 1, true, none⟩
      else
        ⟨st, 1, false, some "queueStore.addSongToQueue is not a function"⟩
    else
      -- `console.error('Failed to add song: ...')`; no throw, no append
      ⟨st, 1, false, none⟩

/-- Everything observable about one `handleEventNotification` call:
the resulting queue state, how many times the song-request router body
ran (`handleSongRequest` invocations), gateway invocations, and whether
a field access on a malformed payload threw (caught by the caller). -/
structure NotifOutcome where
  state : QueueState
  routerCalls : Nat
  gatewayCalls : Nat
  errored : Bool
deriving Repr, DecidableEq

/-- `handleEventNotification(notification)` from `twitchEventSub.js`:
dispatch on `subscription.type`; for a channel-point redemption whose
`reward.title` equals `REDEMPTION_NAME`, hand `user_name`/`user_input`
to `handleSongRequest`; everything else is ignored. -/
def handleEventNotification (env : IngressEnv) (st : QueueState)
    (n : Notification) : NotifOutcome :=
  match n.subscription with
  | none => ⟨st, 0, 0, true⟩ -- reading `.type` of undefined throws
  | some sub =>
    if sub.type = "channel.channel_points_custom_reward_redemption.add" then
      match n.event with
      | none => ⟨st, 0, 0, true⟩ -- reading `.reward` of undefined throws
      | some ev =>
        match ev.reward with
        | none => ⟨st, 0, 0, true⟩ -- reading `.title` of undefined throws
        | some rw =>
          if rw.title = env.redemptionName then
            let h := handleSongRequest env st ev.user_name ev.user_input
            ⟨h.state, 1, h.gatewayCalls, false⟩
          else ⟨st, 0, 0, false⟩
    else ⟨st, 0, 0, false⟩

/-- Everything observable about one `POST /webhook/twitch` delivery:
the queue state afterwards, HTTP status and response body, how many
HMAC signature comparisons were performed, and the router/gateway
invocation counts. -/
structure WebhookOutcome where
  state : QueueState
  status : Nat
  body : String
  sigChecks : Nat
  routerCalls : Nat
  gatewayCalls : Nat
deriving Repr

/-- The `app.post('/webhook/twitch', ...)` handler from
`twitchEventSub.js`, step for step:
1. `JSON.parse` failure → 400;
2. `webhook_callback_verification` → echo the (truthy) challenge with
   200 before any signature work;
3. any of the three correlation headers falsy → 403;
4. recompute `sha256=<hmac(secret, id + ts + rawBody)>`; mismatch → 403;
5. `notification` → `handleEventNotification` (its errors are caught),
   then 204; `revocation`/unknown types are logged and acknowledged
   with 204. -/
def webhookPost (env : IngressEnv) (req : WebhookRequest) (st : QueueState) :
    WebhookOutcome :=
  match req.parsedBody with
  | none => ⟨st, 400, "Invalid request body", 0, 0, 0⟩
  | some notification =>
    if req.messageType = some "webhook_callback_verification" then
      match notification.challenge with
      | some c =>
          if c != "" then ⟨st, 200, c, 0, 0, 0⟩
          else ⟨st, 400, "No challenge found", 0, 0, 0⟩
      | none => ⟨st, 400, "No challenge found", 0, 0, 0⟩
    else
      if truthy req.messageId = false || truthy req.timestamp = false ||
          truthy req.signature = false then
        ⟨st, 403, "Missing required headers", 0, 0, 0⟩
      else
        let hmacMessage :=
          req.messageId.getD "" ++ req.timestamp.getD "" ++ req.rawBody
        let signature :=
          "sha256=" ++ env.hmacSha256Hex env.webhookSecret hmacMessage
        if req.signature ≠ some signature then
          ⟨st, 403, "Signature verification failed", 1, 0, 0⟩
        else
          if req.messageType = some "notification" then
            let r := handleEventNotification env st notification
            ⟨r.state, 204, "", 1, r.routerCalls, r.gatewayCalls⟩
          else
            -- revocation / unhandled types: logged, then acknowledged
            ⟨st, 204, "", 1, 0, 0⟩

end TwitchEventSub

namespace SpotifyClient

/-- The longest leading run of `[a-zA-Z0-9]` characters, as matched by the
`([a-zA-Z0-9]+)` capture groups in `spotifyClient.js`. -/
def takeAlnum : List Char → List Char
  | [] => []
  | c :: cs => if c.isAlpha || c.isDigit then c :: takeAlnum cs else []

/-- Strip a literal pattern from the front of a character list, if it is
there. -/
def stripPat : List Char → List Char → Option (List Char)
  | [], s => some s
  | _ :: _, [] => none
  | p :: ps, c :: cs => if p = c then stripPat ps cs else none

/-- Scan for the regex `spotify:track:([a-zA-Z0-9]+)` anywhere in the
string (first position where the literal is followed by at least one
alphanumeric character wins, like the JS regex engine). -/
def scanUri : List Char → Option (List Char)
  | [] => none
  | c :: rest =>
    match stripPat "spotify:track:".toList (c :: rest) with
    | some rem =>
        let id := takeAlnum rem
        if id.isEmpty then scanUri rest else some id
    | none => scanUri rest

/-- The `(intl-[a-z]\x7b2\x7d/)?` optional group of the track-URL regex. -/
def stripIntl (s : List Char) : Option (List Char) :=
  match stripPat "intl-".toList s with
  | none => none
  | some r =>
    match r with
    | a :: b :: '/' :: rest => if a.isLower && b.isLower then some rest else none
    | _ => none

/-- One attempted match of
`https?://open.spotify.com/(intl-[a-z]\x7b2\x7d/)?track/([a-zA-Z0-9]+)`
anchored at the start of `s`, returning capture group 2. -/
def matchUrlAt (s : List Char) : Option (List Char) :=
  match (stripPat "https://".toList s).orElse
      (fun _ => stripPat "http://".toList s) with
  | none => none
  | some r1 =>
    match stripPat "open.spotify.com/".toList r1 with
    | none => none
    | some r2 =>
      let r3 := (stripIntl r2).getD r2
      match stripPat "track/".toList r3 with
      | none => none
      | some r4 =>
        let id := takeAlnum r4
        if id.isEmpty then none else some id

/-- Scan for the track-URL regex anywhere in the string. -/
def scanUrl : List Char → Option (List Char)
  | [] => none
  | c :: rest =>
    match matchUrlAt (c :: rest) with
    | some id => some id
    | none => scanUrl rest

/-- The track-ID extraction phase of `addSongToQueue`: first the
`spotify:track:` URI regex, then the `open.spotify.com/track/` URL
regex; `none` means the query is treated as a free-text search. -/
def extractTrackId (query : String) : Option String :=
  match scanUri query.toList with
  | some id => some (String.mk id)
  | none => (scanUrl query.toList).map String.mk

/-- The persisted token record (`tokens.json`):
`{ accessToken, refreshToken, expiresAt }`. -/
structure StoredTokens where
  accessToken : String
  refreshToken : String
  expiresAt : Int
deriving Repr, DecidableEq

/-- An error thrown by a Spotify API call: its message and, for enqueue
failures, the `error.body.error.reason` field the code inspects. -/
structure SpotifyApiError where
  message : String
  reason : Option String := none
deriving Repr, DecidableEq

/-- A track as returned by `getTrack` / `searchTracks`. -/
structure TrackInfo where
  id : String
  name : String
  artists : List String
deriving Repr, DecidableEq

/-- A playback device as returned by `getMyDevices`. -/
structure Device where
  id : String
  name : String
  is_active : Bool
deriving Repr, DecidableEq

/-- The environment of `spotifyClient.addSongToQueue`: the module's
`initialized` flag, the token file (`none` models a missing
`tokens.json`, on which `fs.readFileSync` throws), the current clock,
and the Spotify Web API as oracles.  `enqueue`'s second argument is true
on the retry issued after a playback transfer, letting the oracle model a
provider whose device state changed. -/
structure SpotifyEnv where
  initialized : Bool
  tokenFile : Option StoredTokens
  nowMs : Int
  getTrack : String → Except SpotifyApiError TrackInfo
  searchTracks : String → Except SpotifyApiError (List TrackInfo)
  enqueue : String → Bool → Except SpotifyApiError Unit
  myDevices : Except SpotifyApiError (List Device)
  transferOk : String → Bool
  refreshOk : Bool

/-- The structured result `addSongToQueue` returns: on success
`{ success: true, trackName, artistName }` (note: no `trackId` field in
the source), on any caught error `{ success: false, error }`. -/
structure SpotifyResult where
  success : Bool
  trackName : Option String := none
  artistName : Option String := none
  error : Option String := none
deriving Repr, DecidableEq

/-- The externally visible calls `addSongToQueue` made: track resolution
(`getTrack`/`searchTracks`), enqueue attempts, token refreshes and
playback transfers. -/
structure SpotifyEffects where
  resolutionCalls : Nat
  enqueueCalls : Nat
  refreshCalls : Nat
  transferCalls : Nat
deriving Repr, DecidableEq

/-- `artists.map(artist => artist.name).join(', ')`. -/
def joinArtists (artists : List String) : String :=
  String.intercalate ", " artists

/-- The enqueue phase of `addSongToQueue` (the inner `try/catch`): try
`spotifyApi.addToQueue`; on a `NO_ACTIVE_DEVICE` failure, discover
devices (`getDevices` returns `[]` on error), transfer playback to the
first active (else first) device and retry once; any other failure
propagates to the outer catch. `refreshes` carries the refresh count from
the token phase into the effect totals. -/
def enqueuePhase (env : SpotifyEnv) (trackId trackName artistName : String)
    (refreshes : Nat) : SpotifyResult × SpotifyEffects :=
  match env.enqueue ("spotify:track:" ++ trackId) false with
  | .ok _ =>
      ({ success := true, trackName := some trackName,
         artistName := some artistName }, ⟨1, 1, refreshes, 0⟩)
  | .error e =>
    if e.reason = some "NO_ACTIVE_DEVICE" then
      let devices := match env.myDevices with
        | .ok ds => ds
        | .error _ => []
      match devices with
      | [] =>
          ({ success := false,
             error := some "No Spotify devices available. Please open Spotify on a device." },
           ⟨1, 1, refreshes, 0⟩)
      | d0 :: _ =>
        let availableDevice := (devices.find? (fun d => d.is_active)).getD d0
        if env.transferOk availableDevice.id then
          match env.enqueue ("spotify:track:" ++ trackId) true with
          | .ok _ =>
              ({ success := true, trackName := some trackName,
                 artistName := some artistName }, ⟨1, 2, refreshes, 1⟩)
          | .error e2 =>
              ({ success := false, error := some e2.message },
               ⟨1, 2, refreshes, 1⟩)
        else
          ({ success := false,
             error := some "Failed to transfer playback to available device" },
           ⟨1, 1, refreshes, 1⟩)
    else
      ({ success := false, error := some e.message }, ⟨1, 1, refreshes, 0⟩)

/-- `addSongToQueue(query)` from `spotifyClient.js`.  The whole body sits
in a `try/catch` returning `{ success: false, error }` on any throw:
1. `initialized` is checked first;
2. `JSON.parse(fs.readFileSync(TOKEN_PATH))` runs unconditionally — a
   missing token file throws here, before any resolution;
3. if the stored token is expired, `refreshAccessToken()` is awaited
   (its boolean result is ignored by the source);
4. the query is resolved to a track via the URI/URL regexes or a search;
5. the track is enqueued, with the `NO_ACTIVE_DEVICE` transfer-and-retry
   recovery. -/
def addSongToQueue (env : SpotifyEnv) (query : String) :
    SpotifyResult × SpotifyEffects :=
  if env.initialized = false then
    ({ success := false, error := some "Spotify client is not initialized" },
     ⟨0, 0, 0, 0⟩)
  else
    match env.tokenFile with
    | none =>
        -- fs.readFileSync(TOKEN_PATH) throws ENOENT; caught by the outer catch
        ({ success := false,
           error := some "ENOENT: no such file or directory, open tokens.json" },
         ⟨0, 0, 0, 0⟩)
    | some tokens =>
      let refreshes := if env.nowMs > tokens.expiresAt then 1 else 0
      match extractTrackId query with
      | some trackId =>
        match env.getTrack trackId with
        | .error e =>
            ({ success := false, error := some e.message },
             ⟨1, 0, refreshes, 0⟩)
        | .ok track =>
            enqueuePhase env trackId track.name (joinArtists track.artists)
              refreshes
      | none =>
        match env.searchTracks query with
        | .error e =>
            ({ success := false, error := some e.message },
             ⟨1, 0, refreshes, 0⟩)
        | .ok [] =>
            ({ success := false,
               error := some "No tracks found matching the query" },
             ⟨1, 0, refreshes, 0⟩)
        | .ok (track :: _) =>
            enqueuePhase env track.id track.name (joinArtists track.artists)
              refreshes

end SpotifyClient

open QueueStore TwitchEventSub BlacklistManager

/-- A concrete valid song request used by witnesses. -/
def reqA : SongRequest :=
  { trackId := "trackA", trackName := "Song A", artistName := "Artist A",
    requestedBy := "alice" }

/-- A second concrete valid song request. -/
def reqB : SongRequest :=
  { trackId := "trackB", trackName := "Song B", artistName := "Artist B",
    requestedBy := "bob" }

/-- A third concrete valid song request. -/
def reqC : SongRequest :=
  { trackId := "trackC", trackName := "Song C", artistName := "Artist C",
    requestedBy := "carol" }

/-- Claim C1: for every queue `[a, b, rest...]` with at least two entries,
reconciling with a snapshot whose track id equals `b`'s and differs from
`a`'s removes both `a` and `b`, records `a` as skipped, sets `b` as now
playing, returns `matched = true` and `skipped = [a]`, and leaves the
queue equal to `rest` in order. -/
theorem queue_skip_second_match (a b : SongRequest) (rest : List SongRequest)
    (np : Option SongRequest) (h : b.trackId ≠ a.trackId) :
    checkAndRemoveCurrentlyPlaying (some ⟨some ⟨b.trackId⟩⟩)
        ⟨a :: b :: rest, np⟩ =
      (⟨rest, some b⟩, ⟨true, [a]⟩) := by
  simp [checkAndRemoveCurrentlyPlaying, Ne.symm h]

/-- Witness for C1 at a concrete three-element queue. -/
theorem queue_skip_second_match_witness :
    reqB.trackId ≠ reqA.trackId ∧
    checkAndRemoveCurrentlyPlaying (some ⟨some ⟨reqB.trackId⟩⟩)
        ⟨[reqA, reqB, reqC], none⟩ =
      (⟨[reqC], some reqB⟩, ⟨true, [reqA]⟩) :=
  ⟨by decide, queue_skip_second_match reqA reqB [reqC] none (by decide)⟩

/-- Claim C2: appending a valid request `r` to an empty queue and then
reconciling with a snapshot carrying `r`'s track id yields
`matched = true` with no skips, sets the now-playing record's track id to
`r.trackId`, and leaves the queue empty. -/
theorem append_then_reconcile_head (r : SongRequest) (now : String)
    (np : Option SongRequest) (st1 : QueueState) (ret : AddToQueueRet)
    (h1 : r.trackId ≠ "") (h2 : r.trackName ≠ "") (h3 : r.artistName ≠ "")
    (h4 : r.requestedBy ≠ "")
    (ha : addToQueue now r ⟨[], np⟩ = .ok (st1, ret)) :
    (checkAndRemoveCurrentlyPlaying (some ⟨some ⟨r.trackId⟩⟩) st1).2.matched
        = true ∧
    (checkAndRemoveCurrentlyPlaying (some ⟨some ⟨r.trackId⟩⟩) st1).2.skipped
        = [] ∧
    (getCurrentlyPlaying
        (checkAndRemoveCurrentlyPlaying (some ⟨some ⟨r.trackId⟩⟩) st1).1).map
          (fun s => s.trackId) = some r.trackId ∧
    getQueue (checkAndRemoveCurrentlyPlaying (some ⟨some ⟨r.trackId⟩⟩) st1).1
        = [] := by
  simp [addToQueue, h1, h2, h3, h4] at ha
  obtain ⟨rfl, rfl⟩ := ha
  simp [checkAndRemoveCurrentlyPlaying, getCurrentlyPlaying, getQueue]

/-- Witness for C2 at a concrete request. -/
theorem append_then_reconcile_head_witness :
    reqA.trackId ≠ "" ∧ reqA.trackName ≠ "" ∧ reqA.artistName ≠ "" ∧
    reqA.requestedBy ≠ "" ∧
    addToQueue "2024-01-01T00:00:00Z" reqA ⟨[], none⟩ =
      .ok (⟨[{ reqA with requestedAt := some "2024-01-01T00:00:00Z" }], none⟩,
        .queueObj [{ reqA with requestedAt := some "2024-01-01T00:00:00Z" }]) ∧
    (checkAndRemoveCurrentlyPlaying (some ⟨some ⟨reqA.trackId⟩⟩)
        ⟨[{ reqA with requestedAt := some "2024-01-01T00:00:00Z" }], none⟩).2.matched
        = true ∧
    (checkAndRemoveCurrentlyPlaying (some ⟨some ⟨reqA.trackId⟩⟩)
        ⟨[{ reqA with requestedAt := some "2024-01-01T00:00:00Z" }], none⟩).2.skipped
        = [] ∧
    (getCurrentlyPlaying
        (checkAndRemoveCurrentlyPlaying (some ⟨some ⟨reqA.trackId⟩⟩)
          ⟨[{ reqA with requestedAt := some "2024-01-01T00:00:00Z" }], none⟩).1).map
          (fun s => s.trackId) = some reqA.trackId ∧
    getQueue (checkAndRemoveCurrentlyPlaying (some ⟨some ⟨reqA.trackId⟩⟩)
        ⟨[{ reqA with requestedAt := some "2024-01-01T00:00:00Z" }], none⟩).1
        = [] := by
  refine ⟨by decide, by decide, by decide, by decide, by rfl, ?_⟩
  exact append_then_reconcile_head reqA "2024-01-01T00:00:00Z" none
    ⟨[{ reqA with requestedAt := some "2024-01-01T00:00:00Z" }], none⟩
    (.queueObj [{ reqA with requestedAt := some "2024-01-01T00:00:00Z" }])
    (by decide) (by decide) (by decide) (by decide) (by rfl)

/-- Counterexample to claim C7: `clearQueue` does not clear the
now-playing record — after clearing a state whose now-playing record is
`reqB`, `getCurrentlyPlaying` still returns `reqB`, not null. -/
theorem clearQueue_nowPlaying_cex :
    (clearQueue ⟨[reqA], some reqB⟩).1.songRequestQueue = [] ∧
    getCurrentlyPlaying (clearQueue ⟨[reqA], some reqB⟩).1 = some reqB ∧
    getCurrentlyPlaying (clearQueue ⟨[reqA], some reqB⟩).1 ≠ none := by
  refine ⟨rfl, rfl, by decide⟩

/-- Claim C7 as amended: `clearQueue` empties the queue but leaves the
now-playing record untouched, so `getCurrentlyPlaying` returns after the
clear exactly what it returned before. -/
theorem clearQueue_leaves_nowPlaying (st : QueueState) :
    (clearQueue st).1.songRequestQueue = [] ∧
    getCurrentlyPlaying (clearQueue st).1 = getCurrentlyPlaying st := by
  simp [clearQueue, getCurrentlyPlaying]

/-- Counterexample to claim C8: `addToQueue` does not return the 1-based
position of the inserted item; at a concrete valid request on the empty
queue it returns the updated-queue object, which is not the position
value `1` the claim requires. -/
theorem addToQueue_position_cex :
    addToQueue "t0" reqA ⟨[], none⟩ =
      .ok (⟨[{ reqA with requestedAt := some "t0" }], none⟩,
        .queueObj [{ reqA with requestedAt := some "t0" }]) ∧
    AddToQueueRet.queueObj [{ reqA with requestedAt := some "t0" }] ≠
      AddToQueueRet.position 1 := by
  refine ⟨by rfl, by decide⟩

/-- Claim C8 as amended: for every valid request, `addToQueue` returns the
updated-queue object `\x7b queue \x7d`; the inserted item's 1-based
position is recoverable as the length of that returned queue (the queue
length after insertion), but no numeric position is returned. -/
theorem addToQueue_queue_object (now : String) (r : SongRequest)
    (st : QueueState) (h1 : r.trackId ≠ "") (h2 : r.trackName ≠ "")
    (h3 : r.artistName ≠ "") (h4 : r.requestedBy ≠ "") :
    addToQueue now r st =
      .ok ({ st with songRequestQueue :=
              st.songRequestQueue ++ [{ r with requestedAt := some now }] },
        .queueObj (st.songRequestQueue ++ [{ r with requestedAt := some now }])) ∧
    (st.songRequestQueue ++ [{ r with requestedAt := some now }]).length =
      st.songRequestQueue.length + 1 := by
  simp [addToQueue, h1, h2, h3, h4]

/-- Witness for the amended C8 at a concrete request. -/
theorem addToQueue_queue_object_witness :
    reqB.trackId ≠ "" ∧ reqB.trackName ≠ "" ∧ reqB.artistName ≠ "" ∧
    reqB.requestedBy ≠ "" ∧
    (addToQueue "t1" reqB ⟨[reqA], none⟩ =
      .ok (⟨[reqA, { reqB with requestedAt := some "t1" }], none⟩,
        .queueObj [reqA, { reqB with requestedAt := some "t1" }]) ∧
     [reqA, { reqB with requestedAt := some "t1" }].length = [reqA].length + 1) :=
  ⟨by decide, by decide, by decide, by decide,
   addToQueue_queue_object "t1" reqB ⟨[reqA], none⟩
     (by decide) (by decide) (by decide) (by decide)⟩

/-- A sample redemption notification for the configured reward. -/
def sampleNotification : Notification :=
  { challenge := none,
    subscription := some ⟨"channel.channel_points_custom_reward_redemption.add"⟩,
    event := some { reward := some ⟨"Song Request"⟩, user_name := "alice",
                    user_input := "some song please" } }

/-- A sample ingress environment whose gateway reports a resolution
failure; the MAC oracle is a concrete stand-in keyed function. -/
def sampleEnv : IngressEnv :=
  { webhookSecret := "s3cret",
    hmacSha256Hex := fun key msg => key ++ "/" ++ msg,
    redemptionName := "Song Request",
    spotifyInitialized := true,
    gateway := fun _ =>
      { success := false, error := some "No tracks found matching the query" },
    nowIso := "2024-01-01T00:00:00Z" }

/-- A sample well-signed notification delivery for `sampleEnv`
(the signature header matches `sha256=` + the MAC of id + timestamp +
raw body under the webhook secret). -/
def sampleReq : WebhookRequest :=
  { rawBody := "rawbody",
    parsedBody := some sampleNotification,
    messageType := some "notification",
    messageId := some "msg-1",
    timestamp := some "2024-01-01T00:00:01Z",
    signature := some "sha256=s3cret/msg-12024-01-01T00:00:01Zrawbody" }

/-- Counterexample to claim C3: the ingress keeps no record of seen
message ids.  Delivering the same well-signed message id twice invokes
the redemption router once per delivery — two router invocations in
total, not one — and the second delivery is fully processed (204 after
re-dispatch), not merely acknowledged. -/
theorem webhook_duplicate_cex :
    (webhookPost sampleEnv sampleReq ⟨[], none⟩).routerCalls = 1 ∧
    (webhookPost sampleEnv sampleReq
        (webhookPost sampleEnv sampleReq ⟨[], none⟩).state).routerCalls = 1 ∧
    (webhookPost sampleEnv sampleReq ⟨[], none⟩).routerCalls +
      (webhookPost sampleEnv sampleReq
        (webhookPost sampleEnv sampleReq ⟨[], none⟩).state).routerCalls ≠ 1 ∧
    (webhookPost sampleEnv sampleReq
        (webhookPost sampleEnv sampleReq ⟨[], none⟩).state).status = 204 := by
  refine ⟨rfl, rfl, by decide, rfl⟩

/-- Claim C3 as amended: the ingress performs no message-id
deduplication.  Every delivery of a well-signed redemption notification —
including a repeat of an already-seen message id, from any queue state —
is re-verified and re-dispatched, so the router is invoked exactly once
per delivery (twice across two deliveries), each acknowledged with 204. -/
theorem webhook_duplicate_reprocessed (env : IngressEnv)
    (req : WebhookRequest) (st : QueueState) (n : Notification)
    (sub : SubscriptionInfo) (ev : RedemptionEvent) (rw : RewardInfo)
    (hp : req.parsedBody = some n)
    (hmt : req.messageType = some "notification")
    (hid : truthy req.messageId = true)
    (hts : truthy req.timestamp = true)
    (hst : truthy req.signature = true)
    (hsig : req.signature = some ("sha256=" ++
      env.hmacSha256Hex env.webhookSecret
        (req.messageId.getD "" ++ req.timestamp.getD "" ++ req.rawBody)))
    (hsub : n.subscription = some sub)
    (htype : sub.type = "channel.channel_points_custom_reward_redemption.add")
    (hev : n.event = some ev)
    (hrw : ev.reward = some rw)
    (htitle : rw.title = env.redemptionName) :
    (webhookPost env req st).routerCalls = 1 ∧
    (webhookPost env req st).status = 204 ∧
    (webhookPost env req (webhookPost env req st).state).routerCalls = 1 ∧
    (webhookPost env req (webhookPost env req st).state).status = 204 := by
  have aux : ∀ s : QueueState, (webhookPost env req s).routerCalls = 1 ∧
      (webhookPost env req s).status = 204 := by
    intro s
    have hst' : truthy (some ("sha256=" ++
        env.hmacSha256Hex env.webhookSecret
          (req.messageId.getD "" ++ req.timestamp.getD "" ++ req.rawBody)))
        = true := by
      rw [← hsig]; exact hst
    simp [webhookPost, hp, hmt, hid, hts, hst', hsig,
      handleEventNotification, hsub, htype, hev, hrw, htitle]
  exact ⟨(aux st).1, (aux st).2, (aux _).1, (aux _).2⟩

/-- Witness for the amended C3 at the concrete sample delivery. -/
theorem webhook_duplicate_reprocessed_witness :
    sampleReq.parsedBody = some sampleNotification ∧
    sampleReq.messageType = some "notification" ∧
    ((webhookPost sampleEnv sampleReq ⟨[], none⟩).routerCalls = 1 ∧
     (webhookPost sampleEnv sampleReq ⟨[], none⟩).status = 204 ∧
     (webhookPost sampleEnv sampleReq
        (webhookPost sampleEnv sampleReq ⟨[], none⟩).state).routerCalls = 1 ∧
     (webhookPost sampleEnv sampleReq
        (webhookPost sampleEnv sampleReq ⟨[], none⟩).state).status = 204) :=
  ⟨rfl, rfl,
   webhook_duplicate_reprocessed sampleEnv sampleReq ⟨[], none⟩
     sampleNotification
     ⟨"channel.channel_points_custom_reward_redemption.add"⟩
     { reward := some ⟨"Song Request"⟩, user_name := "alice",
       user_input := "some song please" }
     ⟨"Song Request"⟩
     rfl rfl (by decide) (by decide) (by decide) rfl rfl rfl rfl rfl rfl⟩

/-- Claim C4: for every non-verification POST whose body parses, if any
of the three correlation headers is missing (or empty), or the signature
header differs from `sha256=` + the hex HMAC of id + timestamp + raw
body under the webhook secret, the request is rejected with status 403
and neither the router nor the gateway runs and the queue is unchanged. -/
theorem webhook_bad_auth_rejected (env : IngressEnv) (req : WebhookRequest)
    (st : QueueState) (n : Notification)
    (hp : req.parsedBody = some n)
    (hmt : req.messageType ≠ some "webhook_callback_verification")
    (hbad : truthy req.messageId = false ∨ truthy req.timestamp = false ∨
      truthy req.signature = false ∨
      req.signature ≠ some ("sha256=" ++
        env.hmacSha256Hex env.webhookSecret
          (req.messageId.getD "" ++ req.timestamp.getD "" ++ req.rawBody))) :
    (webhookPost env req st).status = 403 ∧
    (webhookPost env req st).routerCalls = 0 ∧
    (webhookPost env req st).gatewayCalls = 0 ∧
    (webhookPost env req st).state = st := by
  by_cases hA : truthy req.messageId = false
  · simp [webhookPost, hp, hmt, hA]
  · by_cases hB : truthy req.timestamp = false
    · simp [webhookPost, hp, hmt, hB]
    · by_cases hC : truthy req.signature = false
      · simp [webhookPost, hp, hmt, hC]
      · have hD : req.signature ≠ some ("sha256=" ++
            env.hmacSha256Hex env.webhookSecret
              (req.messageId.getD "" ++ req.timestamp.getD "" ++ req.rawBody)) := by
          rcases hbad with h | h | h | h
          · exact absurd h hA
          · exact absurd h hB
          · exact absurd h hC
          · exact h
        simp [webhookPost, hp, hmt, hA, hB, hC, hD]

/-- Witness for C4: a notification delivery whose signature header is
absent is rejected with 403 and no processing. -/
theorem webhook_bad_auth_rejected_witness :
    ({ sampleReq with signature := none } : WebhookRequest).parsedBody =
      some sampleNotification ∧
    ({ sampleReq with signature := none } : WebhookRequest).messageType ≠
      some "webhook_callback_verification" ∧
    ((webhookPost sampleEnv { sampleReq with signature := none }
        ⟨[], none⟩).status = 403 ∧
     (webhookPost sampleEnv { sampleReq with signature := none }
        ⟨[], none⟩).routerCalls = 0 ∧
     (webhookPost sampleEnv { sampleReq with signature := none }
        ⟨[], none⟩).gatewayCalls = 0 ∧
     (webhookPost sampleEnv { sampleReq with signature := none }
        ⟨[], none⟩).state = ⟨[], none⟩) :=
  ⟨rfl, by decide,
   webhook_bad_auth_rejected sampleEnv { sampleReq with signature := none }
     ⟨[], none⟩ sampleNotification rfl (by decide)
     (Or.inr (Or.inr (Or.inl rfl)))⟩

/-- An ingress environment whose gateway reports a successful enqueue. -/
def successEnv : IngressEnv :=
  { webhookSecret := "s3cret",
    hmacSha256Hex := fun key msg => key ++ "/" ++ msg,
    redemptionName := "Song Request",
    spotifyInitialized := true,
    gateway := fun _ =>
      { success := true, trackName := some "Track", artistName := some "Artist" },
    nowIso := "2024-01-01T00:00:00Z" }

/-- Claim C5, evaluated at the failing input: even when the playback
gateway reports success, the router never appends the request to the
local queue — `queueStore.js` exports no `addSongToQueue`, so the call
`queueStore.addSongToQueue(songData)` throws a `TypeError` that the
router's `try/catch` absorbs, leaving the queue unchanged.  (The other
direction of the claim does hold: a failed gateway result is not
appended either, last conjunct.) -/
theorem success_never_appended :
    (successEnv.gateway "some song please").success = true ∧
    queueStoreExports.contains "addSongToQueue" = false ∧
    handleSongRequest successEnv ⟨[], none⟩ "alice" "some song please" =
      ⟨⟨[], none⟩, 1, false,
        some "queueStore.addSongToQueue is not a function"⟩ ∧
    (handleSongRequest sampleEnv ⟨[], none⟩ "alice" "x").appended = false := by
  refine ⟨rfl, by decide, by decide, rfl⟩

/-- Claim C6: a `webhook_callback_verification` POST whose payload
carries a (truthy) challenge string is answered with status 200 and the
challenge as the exact response body, with no signature comparison
performed and no processing or queue mutation. -/
theorem webhook_verification_echo (env : IngressEnv) (req : WebhookRequest)
    (st : QueueState) (n : Notification) (c : String)
    (hp : req.parsedBody = some n)
    (hmt : req.messageType = some "webhook_callback_verification")
    (hc : n.challenge = some c) (hcne : c ≠ "") :
    webhookPost env req st = ⟨st, 200, c, 0, 0, 0⟩ := by
  simp [webhookPost, hp, hmt, hc, bne_iff_ne, hcne]

/-- A concrete verification handshake request with challenge `"abc123"`. -/
def verifyReq : WebhookRequest :=
  { rawBody := "x",
    parsedBody := some { challenge := some "abc123" },
    messageType := some "webhook_callback_verification",
    messageId := none, timestamp := none, signature := none }

/-- Witness for C6 at challenge `"abc123"`. -/
theorem webhook_verification_echo_witness :
    verifyReq.parsedBody = some { challenge := some "abc123" } ∧
    verifyReq.messageType = some "webhook_callback_verification" ∧
    ("abc123" : String) ≠ "" ∧
    webhookPost sampleEnv verifyReq ⟨[], none⟩ =
      ⟨⟨[], none⟩, 200, "abc123", 0, 0, 0⟩ :=
  ⟨rfl, rfl, by decide,
   webhook_verification_echo sampleEnv verifyReq ⟨[], none⟩
     { challenge := some "abc123" } "abc123" rfl rfl rfl (by decide)⟩

/-- Counterexample to claim C9: the redemption router does not consult
the blacklist.  `"BadUser"` is blacklisted (the stored list is
`"baduser,troll"`), yet `handleSongRequest` still invokes the playback
gateway — track resolution — once, not zero times. -/
theorem blacklist_not_consulted_cex :
    isBlacklisted (some "baduser,troll") "BadUser" = true ∧
    (handleSongRequest sampleEnv ⟨[], none⟩ "BadUser" "some song").gatewayCalls
      = 1 ∧
    ¬ ((handleSongRequest sampleEnv ⟨[], none⟩ "BadUser"
        "some song").gatewayCalls = 0) := by
  refine ⟨by decide, rfl, by decide⟩

/-- Claim C9 as amended: `isBlacklisted` exists (membership of the
lowercased requester in the stored list) but the redemption router never
consults it — whenever the Spotify client is initialized, a request from
a blacklisted requester still invokes the playback gateway (track
resolution and enqueue) exactly once, like any other request. -/
theorem router_ignores_blacklist (env : IngressEnv) (st : QueueState)
    (file : Option String) (username message : String)
    (hinit : env.spotifyInitialized = true)
    (_hbl : isBlacklisted file username = true) :
    (handleSongRequest env st username message).gatewayCalls = 1 := by
  by_cases hs : (env.gateway message).success <;>
    simp [handleSongRequest, hinit, hs, queueStoreExports]

/-- Witness for the amended C9 at a concrete blacklisted requester. -/
theorem router_ignores_blacklist_witness :
    sampleEnv.spotifyInitialized = true ∧
    isBlacklisted (some "baduser,troll") "BadUser" = true ∧
    (handleSongRequest sampleEnv ⟨[], none⟩ "BadUser" "some song").gatewayCalls
      = 1 :=
  ⟨rfl, by decide,
   router_ignores_blacklist sampleEnv ⟨[], none⟩ (some "baduser,troll")
     "BadUser" "some song" rfl (by decide)⟩

/-- Claim C10: when the token file is absent, `addSongToQueue` fails
closed — the unconditional `fs.readFileSync(TOKEN_PATH)` throws, the
outer catch converts it into a structured failure, and no track
resolution or enqueue call is made — even when the client reports itself
initialized (e.g. from environment-stored tokens). -/
theorem token_file_missing_fails_closed (env : SpotifyClient.SpotifyEnv)
    (q : String) (hinit : env.initialized = true)
    (hfile : env.tokenFile = none) :
    (SpotifyClient.addSongToQueue env q).1.success = false ∧
    (SpotifyClient.addSongToQueue env q).1.error =
      some "ENOENT: no such file or directory, open tokens.json" ∧
    (SpotifyClient.addSongToQueue env q).2.resolutionCalls = 0 ∧
    (SpotifyClient.addSongToQueue env q).2.enqueueCalls = 0 := by
  simp [SpotifyClient.addSongToQueue, hinit, hfile]

/-- A concrete Spotify environment: initialized (as from environment
tokens) but with no token file on disk. -/
def fileMissingEnv : SpotifyClient.SpotifyEnv :=
  { initialized := true, tokenFile := none, nowMs := 0,
    getTrack := fun _ => .error ⟨"offline", none⟩,
    searchTracks := fun _ => .error ⟨"offline", none⟩,
    enqueue := fun _ _ => .error ⟨"offline", none⟩,
    myDevices := .error ⟨"offline", none⟩,
    transferOk := fun _ => false,
    refreshOk := false }

/-- Witness for C10 at a concrete environment and query. -/
theorem token_file_missing_fails_closed_witness :
    fileMissingEnv.initialized = true ∧
    fileMissingEnv.tokenFile = none ∧
    ((SpotifyClient.addSongToQueue fileMissingEnv "any song").1.success
        = false ∧
     (SpotifyClient.addSongToQueue fileMissingEnv "any song").1.error =
        some "ENOENT: no such file or directory, open tokens.json" ∧
     (SpotifyClient.addSongToQueue fileMissingEnv "any song").2.resolutionCalls
        = 0 ∧
     (SpotifyClient.addSongToQueue fileMissingEnv "any song").2.enqueueCalls
        = 0) :=
  ⟨rfl, rfl, token_file_missing_fails_closed fileMissingEnv "any song" rfl rfl⟩
